import Mathlib

/-!
Shallow embedding of the sales-and-reminder tracker (`src/App.jsx`).

Modelling conventions:
* Instants are milliseconds since the Unix epoch as `Int`; the local time
  zone is taken to be UTC (no DST), so `setHours(0,0,0,0)` becomes rounding
  down to a multiple of `msPerDay`.
* Firestore timestamps carry a `seconds` field; a sale's `dosageEndDate` is
  a `DateField`: absent (falsy in JS), present-but-malformed (no usable
  `seconds`, arithmetic on it yields NaN), or a valid seconds value.
* `Math.ceil(a / b)` on integer millisecond quantities is exact ceiling
  division, `jsCeilDiv`.
* Calendar dates (from `<input type=date>` strings) are `CalDate` with a
  0-based month as in JS `Date.getMonth`; `Date.prototype.setMonth` is
  `jsSetMonth`, following ECMAScript MakeDay semantics (day-of-month
  overflow rolls into the following month; inputs have day ≤ 31).
* `Array.prototype.sort` (stable, ES2019) is modelled by a stable
  insertion sort over the JS comparator's order.
* Monetary values do not enter any claim; they are modelled as `Int`.
-/

namespace HootoneApp

def msPerDay : Int := 86400000

/-- Ceiling division, the value of JS `Math.ceil(a / b)` for integers with `b > 0`. -/
def jsCeilDiv (a b : Int) : Int := -(Int.fdiv (-a) b)

/-- Start of the (UTC-local) day containing instant `t`, i.e. `setHours(0,0,0,0)`. -/
def midnightMs (t : Int) : Int := msPerDay * Int.fdiv t msPerDay

/-- Gregorian leap-year test (JS `Date` calendar). -/
def isLeap (y : Int) : Bool :=
  Int.emod y 4 == 0 && (Int.emod y 100 != 0 || Int.emod y 400 == 0)

/-- Number of days in month `m` (0-based, as in JS `getMonth`) of year `y`. -/
def daysInMonth (y : Int) (m : Nat) : Nat :=
  if m == 1 then (if isLeap y then 29 else 28)
  else if m == 3 || m == 5 || m == 8 || m == 10 then 30
  else 31

/-- Calendar date with 0-based month (JS `Date` field conventions), 1-based day. -/
structure CalDate where
  year : Int
  month : Nat
  day : Nat
deriving DecidableEq, Repr

/-- JS `Date.prototype.setMonth m` on date `d` (ECMAScript MakeDay): the month
index is normalised into the year, and a day beyond the target month's length
rolls into the following month. Faithful for `d.day ≤ 31`, which covers every
date produced by the app's date inputs. -/
def jsSetMonth (d : CalDate) (m : Int) : CalDate :=
  let y := d.year + Int.fdiv m 12
  let mn := (Int.emod m 12).toNat
  if d.day ≤ daysInMonth y mn then ⟨y, mn, d.day⟩
  else if mn == 11 then ⟨y + 1, 0, d.day - daysInMonth y mn⟩
  else ⟨y, mn + 1, d.day - daysInMonth y mn⟩

/-- Days from the Unix epoch to calendar date `c` (civil-from-days inverse of the
proleptic Gregorian calendar, Hinnant's algorithm). -/
def daysFromCivil (c : CalDate) : Int :=
  let m1 : Int := (c.month : Int) + 1
  let y : Int := if m1 ≤ 2 then c.year - 1 else c.year
  let era : Int := Int.fdiv y 400
  let yoe : Int := y - era * 400
  let mp : Int := if m1 > 2 then m1 - 3 else m1 + 9
  let doy : Int := Int.fdiv (153 * mp + 2) 5 + (c.day : Int) - 1
  let doe : Int := yoe * 365 + Int.fdiv yoe 4 - Int.fdiv yoe 100 + doy
  era * 146097 + doe - 719468

/-- Firestore timestamp seconds of UTC midnight of calendar date `c`
(the stored value of `new Date(isoDateString)`). -/
def calSeconds (c : CalDate) : Int := 86400 * daysFromCivil c

/-- Stored `dosageEndDate` field: absent (JS-falsy), present but without a usable
`seconds` number (date arithmetic on it yields NaN), or a valid timestamp. -/
inductive DateField where
  | missing
  | malformed
  | valid (seconds : Int)
deriving DecidableEq, Repr

/-- One entry of a sale's `history` array (timestamps in epoch seconds). -/
structure HistoryEntry where
  purchaseDate : Int
  duration : Int
  dosageEndDate : Int
  updatedBy : String
  updatedAt : Option Int
deriving DecidableEq, Repr

/-- Sale document as read from the `sales` collection. `none` for
`phoneNumber` / `whatsappNumber` / `lastReminderSent` covers the JS-falsy
cases (absent or empty string). -/
structure Sale where
  id : String
  patientName : String
  phoneNumber : Option String
  whatsappNumber : Option String
  medicineId : String
  medicineName : String
  price : Int
  optionalCharges : Int
  totalAmount : Int
  purchaseDate : Int
  duration : Int
  dosageEndDate : DateField
  teamMemberId : String
  teamMemberName : String
  createdAt : Int
  history : List HistoryEntry
  lastReminderSent : Option String
deriving DecidableEq, Repr

/-! Expiry classification (`getFilteredSales`, App.jsx lines 426-455). -/

inductive FilterKind where
  | expiring5days
  | expiredToday
  | alreadyExpired
deriving DecidableEq, Repr

inductive SortKind where
  | byEndDate
  | byLastReminderSent
deriving DecidableEq, Repr

/-- Value of `diffDays` in `getFilteredSales`: both instants are first set to
local midnight, then the difference is ceiling-divided by one day. -/
def diffDays (nowMs endMs : Int) : Int :=
  jsCeilDiv (midnightMs endMs - midnightMs nowMs) msPerDay

/-- Filter predicate of `getFilteredSales`. The guard
`if (!sale.dosageEndDate?.seconds) return false` excludes a missing or
malformed field and also a stored seconds value of exactly `0` (JS-falsy). -/
def matchesFilter (nowMs : Int) (f : FilterKind) (sale : Sale) : Bool :=
  match sale.dosageEndDate with
  | .valid s =>
      if s = 0 then false
      else
        let dd := diffDays nowMs (s * 1000)
        match f with
        | .expiring5days => decide (1 ≤ dd) && decide (dd ≤ 5)
        | .expiredToday => decide (dd = 0)
        | .alreadyExpired => decide (dd < 0)
  | _ => false

/-- Sort key `a.dosageEndDate.seconds` used by the end-date comparator
(every sale surviving the filter has a valid field; `0` is a dummy). -/
def endSeconds (sale : Sale) : Int :=
  match sale.dosageEndDate with
  | .valid s => s
  | _ => 0

/-- Sort key `a.lastReminderSent ? new Date(a.lastReminderSent).getTime() : 0`;
`parseDateMs` is the platform's date-string parser (an external collaborator). -/
def reminderSortKey (parseDateMs : String → Int) (sale : Sale) : Int :=
  match sale.lastReminderSent with
  | some s => parseDateMs s
  | none => 0

/-- Dashboard list computation (`getFilteredSales`): filter by the selected
bucket, then stable-sort with the selected comparator (end-date ascending, or
last-reminder date descending). -/
def getFilteredSales (parseDateMs : String → Int) (nowMs : Int)
    (filter : FilterKind) (sortBy : SortKind) (sales : List Sale) : List Sale :=
  let filtered := sales.filter (matchesFilter nowMs filter)
  match sortBy with
  | .byLastReminderSent =>
      List.insertionSort
        (fun a b => reminderSortKey parseDateMs b ≤ reminderSortKey parseDateMs a) filtered
  | .byEndDate =>
      List.insertionSort (fun a b => endSeconds a ≤ endSeconds b) filtered

/-! Reminder evaluation paths. All three compute
`daysLeft = Math.ceil((endDate - now) / 86400000)` on RAW instants — unlike
`getFilteredSales`, no midnight normalisation is applied. -/

/-- Result of the messaging collaborator `sendWhatsAppReminder`: `ok` when a
2xx response body is returned, `fail` when it returns `null` (non-2xx or
network error, caught internally). -/
inductive MsgResult where
  | ok
  | fail
deriving DecidableEq, Repr

/-- Observable outcome of evaluating one reminder path on one sale:
whether the messaging collaborator was invoked, the sale record afterwards
(stamp possibly written), and an emitted notification `(text, isError)`. -/
structure ReminderOutcome where
  messaged : Bool
  sale : Sale
  notice : Option (String × Bool)
deriving DecidableEq, Repr

/-- Outcome when a path does nothing to a sale. -/
def noAction (sale : Sale) : ReminderOutcome := ⟨false, sale, none⟩

def successNotice (patientName : String) : String :=
  "WhatsApp reminder sent for " ++ patientName ++ "."

def failureNotice (patientName : String) : String :=
  "❌ Failed to send WhatsApp reminder to " ++ patientName ++ "."

/-- Value of `daysLeft` on a `DateField`: `none` models the NaN produced when
the field is present but has no usable `seconds` (and `NaN === 2` is false);
no midnight normalisation is performed. -/
def daysLeftOpt (nowMs : Int) : DateField → Option Int
  | .valid s => some (jsCeilDiv (s * 1000 - nowMs) msPerDay)
  | _ => none

/-- Dashboard's `lastReminderSent`-checking reminder effect (App.jsx lines
400-423): skip when the date field is absent or the phone number is falsy;
fire when raw `daysLeft === 2` and the record is not stamped with today's
date string; on collaborator success write the stamp and emit a success
notification, on failure leave the record unchanged and emit a failure
notification naming the patient. -/
def dashboardReminderGate (nowMs : Int) (todayStr : String) (send : MsgResult)
    (sale : Sale) : ReminderOutcome :=
  if sale.dosageEndDate = .missing ∨ sale.phoneNumber = none then noAction sale
  else if daysLeftOpt nowMs sale.dosageEndDate = some 2
      ∧ sale.lastReminderSent ≠ some todayStr then
    match send with
    | .ok => ⟨true, { sale with lastReminderSent := some todayStr },
        some (successNotice sale.patientName, false)⟩
    | .fail => ⟨true, sale, some (failureNotice sale.patientName, true)⟩
  else noAction sale

/-- Dashboard's `sentToday`-map reminder effect (App.jsx lines 375-398): the
dedup key lives in a per-render in-memory `Map` (`alreadyInSentMap`), the
persistent `lastReminderSent` stamp is never consulted and never written;
notifications are emitted from the promise handler. -/
def dashboardMapPath (nowMs : Int) (alreadyInSentMap : Bool) (send : MsgResult)
    (sale : Sale) : ReminderOutcome :=
  if sale.dosageEndDate = .missing ∨ sale.phoneNumber = none then noAction sale
  else if daysLeftOpt nowMs sale.dosageEndDate = some 2 then
    if alreadyInSentMap then noAction sale
    else ⟨true, sale,
      some (match send with
        | .ok => (successNotice sale.patientName, false)
        | .fail => (failureNotice sale.patientName, true))⟩
  else noAction sale

/-- AllCustomersList reminder effect (App.jsx lines 563-579): fires whenever
raw `daysLeft === 2`; no dedup check of any kind, no stamp write, and no
notification (the promise result is ignored). -/
def allCustomersReminderPath (nowMs : Int) (sale : Sale) : ReminderOutcome :=
  if sale.dosageEndDate = .missing ∨ sale.phoneNumber = none then noAction sale
  else if daysLeftOpt nowMs sale.dosageEndDate = some 2 then ⟨true, sale, none⟩
  else noAction sale

/-! Sale creation and reorder (App.jsx lines 667-694 and 1014-1033). -/

/-- Dosage-end-date computation of the add-sale form (App.jsx lines 673-674):
`new Date(purchaseDate)` followed by `setMonth(getMonth() + duration)`. -/
def addSaleDosageEndDate (purchaseDate : CalDate) (duration : Int) : CalDate :=
  jsSetMonth purchaseDate ((purchaseDate.month : Int) + duration)

/-- Dosage-end-date computation of the reorder modal (App.jsx lines 1017-1018):
`new Date(purchaseDate)` followed by `setMonth(getMonth() + duration)`. -/
def reorderDosageEndDate (purchaseDate : CalDate) (duration : Int) : CalDate :=
  jsSetMonth purchaseDate ((purchaseDate.month : Int) + duration)

/-- Form data of the add-sale screen after parsing (`parseInt`/`parseFloat`
already applied; the date input yields a calendar date). -/
structure AddSaleInput where
  patientName : String
  phoneNumber : Option String
  whatsappNumber : Option String
  medicineId : String
  medicineName : String
  price : Int
  optionalCharges : Int
  purchaseDate : CalDate
  duration : Int
deriving DecidableEq, Repr

/-- Sale document written by `AddSaleForm.handleSubmit` (App.jsx lines
676-685). The first history entry carries no `updatedAt`. -/
def addSaleRecord (input : AddSaleInput) (userUid userName : String)
    (nowSec : Int) (newId : String) : Sale :=
  let dosageEndDate := addSaleDosageEndDate input.purchaseDate input.duration
  { id := newId
    patientName := input.patientName
    phoneNumber := input.phoneNumber
    whatsappNumber := match input.whatsappNumber with
      | some w => some w
      | none => input.phoneNumber
    medicineId := input.medicineId
    medicineName := input.medicineName
    price := input.price
    optionalCharges := input.optionalCharges
    totalAmount := input.price + input.optionalCharges
    purchaseDate := calSeconds input.purchaseDate
    duration := input.duration
    dosageEndDate := .valid (calSeconds dosageEndDate)
    teamMemberId := userUid
    teamMemberName := userName
    createdAt := nowSec
    history := [{ purchaseDate := calSeconds input.purchaseDate
                  duration := input.duration
                  dosageEndDate := calSeconds dosageEndDate
                  updatedBy := userName
                  updatedAt := none }]
    lastReminderSent := none }

/-- Update performed by `ReorderModal.handleReorder` (App.jsx lines 1014-1033):
recompute the dosage end date, append one history entry, and overwrite
`purchaseDate`, `duration`, `dosageEndDate`; every other field is untouched. -/
def handleReorder (sale : Sale) (purchaseDate : CalDate) (duration : Int)
    (userName : String) (nowSec : Int) : Sale :=
  let newDosageEndDate := reorderDosageEndDate purchaseDate duration
  let newHistoryEntry : HistoryEntry :=
    { purchaseDate := calSeconds purchaseDate
      duration := duration
      dosageEndDate := calSeconds newDosageEndDate
      updatedBy := userName
      updatedAt := some nowSec }
  { sale with
      purchaseDate := calSeconds purchaseDate
      duration := duration
      dosageEndDate := .valid (calSeconds newDosageEndDate)
      history := sale.history ++ [newHistoryEntry] }

/-- Sample sale used to instantiate theorems on concrete inputs. -/
def mkSale (endDate : DateField) (phone : Option String)
    (stamp : Option String) : Sale :=
  { id := "s1"
    patientName := "Asha"
    phoneNumber := phone
    whatsappNumber := phone
    medicineId := "m1"
    medicineName := "Tonic"
    price := 100
    optionalCharges := 0
    totalAmount := 100
    purchaseDate := 0
    duration := 1
    dosageEndDate := endDate
    teamMemberId := "u1"
    teamMemberName := "Taazeem"
    createdAt := 0
    history := []
    lastReminderSent := stamp }

/-! Helper lemmas shared by the claim theorems. -/

theorem jsCeilDiv_mul_cancel (N : Int) : jsCeilDiv (N * msPerDay) msPerDay = N := by
  unfold jsCeilDiv msPerDay
  rw [← neg_mul, Int.mul_fdiv_cancel _ (by decide), Int.neg_neg]

theorem diffDays_eq_of_midnight (nowMs endMs N : Int)
    (h : midnightMs endMs = midnightMs nowMs + N * msPerDay) :
    diffDays nowMs endMs = N := by
  unfold diffDays
  rw [h, add_sub_cancel_left]
  exact jsCeilDiv_mul_cancel N

theorem matchesFilter_alreadyExpired_iff (nowMs : Int) (sale : Sale) :
    matchesFilter nowMs .alreadyExpired sale = true ↔
      ∃ s, sale.dosageEndDate = DateField.valid s ∧ s ≠ 0
        ∧ diffDays nowMs (s * 1000) < 0 := by
  unfold matchesFilter
  cases hd : sale.dosageEndDate with
  | missing => simp
  | malformed => simp
  | valid s =>
    by_cases hs : s = 0
    · simp [hs]
    · simp [hs]

/-! Claim theorems. -/

/-- C1 counterexample: a record already stamped with today's date string
(today is 1970-01-01, instant 0) and two raw days from its dosage end is
nevertheless messaged again by the AllCustomersList evaluation path, which
never consults `lastReminderSent`; so the program does NOT make at most one
messaging call per record per calendar day across all evaluation paths. -/
theorem c1_stamped_record_messaged_again :
    (mkSale (.valid 172800) (some "919876543210") (some "1970-01-01")).lastReminderSent
        = some "1970-01-01"
    ∧ (allCustomersReminderPath 0
        (mkSale (.valid 172800) (some "919876543210") (some "1970-01-01"))).messaged
        = true := by
  decide

/-- C1 (amended): the at-most-once-per-day dedup holds only for the
Dashboard's `lastReminderSent`-checking effect: a record stamped with today's
date string is a Skip there — no messaging call, record and notifications
unchanged. The Dashboard's in-memory-map path and the AllCustomersList path
do not consult the stamp. -/
theorem dashboardGate_skip_of_stamped_today (sale : Sale) (nowMs : Int)
    (todayStr : String) (send : MsgResult)
    (h : sale.lastReminderSent = some todayStr) :
    dashboardReminderGate nowMs todayStr send sale = noAction sale := by
  unfold dashboardReminderGate
  split_ifs with h1 h2
  · rfl
  · exact absurd h h2.2
  · rfl

/-- C1 witness: the stamped-skip theorem applied to a concrete record that is
exactly two raw days from its dosage end (so the gate would otherwise fire). -/
theorem dashboardGate_skip_of_stamped_today_witness :
    dashboardReminderGate 0 "1970-01-01" MsgResult.ok
        (mkSale (.valid 172800) (some "919876543210") (some "1970-01-01"))
      = noAction (mkSale (.valid 172800) (some "919876543210") (some "1970-01-01")) :=
  dashboardGate_skip_of_stamped_today
    (mkSale (.valid 172800) (some "919876543210") (some "1970-01-01"))
    0 "1970-01-01" MsgResult.ok rfl

/-- C2 counterexample: at 08:00 of epoch day 0, a record whose dosage end
timestamp is 23:00 of epoch day 2 has midnight-normalized daysRemaining = 2
(the Expiry Classifier value), yet the reminder gate does not attempt a send:
the gate divides RAW instants, getting ceil(2.625) = 3. -/
theorem c2_normalized_two_days_but_gate_skips :
    diffDays 28800000 (255600 * 1000) = 2
    ∧ (mkSale (.valid 255600) (some "919876543210") none).lastReminderSent
        ≠ some "1970-01-01"
    ∧ (dashboardReminderGate 28800000 "1970-01-01" MsgResult.ok
        (mkSale (.valid 255600) (some "919876543210") none)).messaged = false := by
  decide

/-- C2 (amended): for a sale with a valid dosage-end timestamp and a phone
number, the Dashboard reminder gate attempts a send iff
ceil((endInstant - now) / 1 day) computed on RAW instants (no midnight
normalization) equals 2 AND the record is not stamped with today's date
string. -/
theorem dashboardGate_fires_iff_raw (nowMs : Int) (todayStr : String)
    (send : MsgResult) (sale : Sale) (s : Int) (p : String)
    (hend : sale.dosageEndDate = DateField.valid s)
    (hp : sale.phoneNumber = some p) :
    (dashboardReminderGate nowMs todayStr send sale).messaged = true ↔
      (jsCeilDiv (s * 1000 - nowMs) msPerDay = 2
        ∧ sale.lastReminderSent ≠ some todayStr) := by
  unfold dashboardReminderGate
  rw [hend, hp]
  simp only [daysLeftOpt, Option.some.injEq]
  rw [if_neg (by simp)]
  split_ifs with hc
  · cases send <;> simpa using hc
  · simpa [noAction] using hc

/-- C2 witness: the raw-fires-iff theorem applied to a record exactly two raw
days out and unstamped, where the gate does fire. -/
theorem dashboardGate_fires_iff_raw_witness :
    (dashboardReminderGate 0 "1970-01-01" MsgResult.ok
        (mkSale (.valid 172800) (some "919876543210") none)).messaged = true ↔
      (jsCeilDiv (172800 * 1000 - 0) msPerDay = 2
        ∧ (mkSale (.valid 172800) (some "919876543210") none).lastReminderSent
            ≠ some "1970-01-01") :=
  dashboardGate_fires_iff_raw 0 "1970-01-01" MsgResult.ok
    (mkSale (.valid 172800) (some "919876543210") none) 172800 "919876543210" rfl rfl

/-- C3 counterexample: the Dashboard's in-memory-map reminder path attempts a
send (messaging collaborator invoked, success acknowledged) yet the record's
`lastReminderSent` is NOT set to today's date string — it stays absent; so it
is false that every reminder attempt stamps the record on success. -/
theorem c3_map_path_success_without_stamp :
    (dashboardMapPath 0 false MsgResult.ok
        (mkSale (.valid 172800) (some "919876543210") none)).messaged = true
    ∧ (dashboardMapPath 0 false MsgResult.ok
        (mkSale (.valid 172800) (some "919876543210") none)).sale.lastReminderSent
        = none := by
  decide

/-- C3 (amended): for every attempt made by the Dashboard's
`lastReminderSent`-checking gate: on collaborator success the record is
stamped with today's date string and a success notification is emitted; on
failure the record is unchanged (no stamp write, permitting retry) and a
failure notification naming the patient is emitted. The map path and the
AllCustomersList path never stamp. -/
theorem dashboardGate_attempt_outcomes (nowMs : Int) (todayStr : String)
    (sale : Sale)
    (h : (dashboardReminderGate nowMs todayStr MsgResult.ok sale).messaged = true) :
    dashboardReminderGate nowMs todayStr MsgResult.ok sale
        = ⟨true, { sale with lastReminderSent := some todayStr },
            some (successNotice sale.patientName, false)⟩
    ∧ dashboardReminderGate nowMs todayStr MsgResult.fail sale
        = ⟨true, sale, some (failureNotice sale.patientName, true)⟩ := by
  unfold dashboardReminderGate at h ⊢
  split_ifs at h ⊢
  · exact absurd h (by simp [noAction])
  · exact ⟨rfl, rfl⟩
  · exact absurd h (by simp [noAction])

/-- C3 witness: outcome characterization applied to a concrete firing
record, on both a successful and a failed collaborator response. -/
theorem dashboardGate_attempt_outcomes_witness :
    dashboardReminderGate 0 "1970-01-01" MsgResult.ok
        (mkSale (.valid 172800) (some "919876543210") none)
        = ⟨true, { mkSale (.valid 172800) (some "919876543210") none with
              lastReminderSent := some "1970-01-01" },
            some (successNotice "Asha", false)⟩
    ∧ dashboardReminderGate 0 "1970-01-01" MsgResult.fail
        (mkSale (.valid 172800) (some "919876543210") none)
        = ⟨true, mkSale (.valid 172800) (some "919876543210") none,
            some (failureNotice "Asha", true)⟩ :=
  dashboardGate_attempt_outcomes 0 "1970-01-01"
    (mkSale (.valid 172800) (some "919876543210") none) (by decide)

/-- C4 counterexample: a sale whose dosage end timestamp is exactly the epoch
(seconds = 0) is one day overdue (N = -1 < 0) on epoch day 1, yet the
already_expired bucket excludes it: the guard
`!sale.dosageEndDate?.seconds` treats the stored seconds value 0 as missing
(JS falsiness), so the record lands in no bucket despite N < 0. -/
theorem c4_epoch_timestamp_not_bucketed :
    (mkSale (.valid 0) (some "919876543210") none).dosageEndDate = DateField.valid 0
    ∧ diffDays 86400000 (0 * 1000) = -1
    ∧ matchesFilter 86400000 FilterKind.alreadyExpired
        (mkSale (.valid 0) (some "919876543210") none) = false := by
  decide

/-- C4 (amended): for every sale whose dosage end timestamp is valid and
nonzero and lies exactly N days after today (both midnight-normalized), the
classifier yields daysRemaining = N, and the sale is in the expiring_5_days
bucket iff 1 ≤ N ≤ 5, in expired_today iff N = 0, and in already_expired iff
N < 0 (hence in no bucket when N ≥ 6). A stored timestamp of exactly 0
seconds is excluded from every bucket by JS falsiness. -/
theorem classifier_buckets (nowMs s N : Int) (sale : Sale)
    (hend : sale.dosageEndDate = DateField.valid s) (hs : s ≠ 0)
    (hN : midnightMs (s * 1000) = midnightMs nowMs + N * msPerDay) :
    diffDays nowMs (s * 1000) = N
    ∧ (matchesFilter nowMs .expiring5days sale = true ↔ 1 ≤ N ∧ N ≤ 5)
    ∧ (matchesFilter nowMs .expiredToday sale = true ↔ N = 0)
    ∧ (matchesFilter nowMs .alreadyExpired sale = true ↔ N < 0) := by
  have hdd : diffDays nowMs (s * 1000) = N := diffDays_eq_of_midnight _ _ _ hN
  refine ⟨hdd, ?_, ?_, ?_⟩ <;> simp [matchesFilter, hend, hs, hdd]

/-- C4 witness: the bucket theorem applied to a sale three days out
(N = 3, an upcoming record). -/
theorem classifier_buckets_witness :
    diffDays 0 (259200 * 1000) = 3
    ∧ (matchesFilter 0 .expiring5days
        (mkSale (.valid 259200) (some "919876543210") none) = true ↔
          1 ≤ (3 : Int) ∧ (3 : Int) ≤ 5)
    ∧ (matchesFilter 0 .expiredToday
        (mkSale (.valid 259200) (some "919876543210") none) = true ↔ (3 : Int) = 0)
    ∧ (matchesFilter 0 .alreadyExpired
        (mkSale (.valid 259200) (some "919876543210") none) = true ↔ (3 : Int) < 0) :=
  classifier_buckets 0 259200 3 (mkSale (.valid 259200) (some "919876543210") none)
    rfl (by decide) (by decide)

/-- C5: the add-sale form and the reorder modal compute the dosage end date by
the same function of (purchaseDate, duration); both store exactly that value
on the record; and the computation is calendar-aware month addition with
ECMAScript day-of-month overflow (2024-01-31 + 1 month = 2024-03-02 in the
leap year 2024), not a fixed 30-day increment. -/
theorem dosageEndDate_paths_agree (pd : CalDate) (dur : Int) (sale : Sale)
    (input : AddSaleInput) (uid uname newId : String) (nowSec : Int) :
    addSaleDosageEndDate pd dur = reorderDosageEndDate pd dur
    ∧ (addSaleRecord input uid uname nowSec newId).dosageEndDate
        = DateField.valid (calSeconds (addSaleDosageEndDate input.purchaseDate input.duration))
    ∧ (handleReorder sale pd dur uname nowSec).dosageEndDate
        = DateField.valid (calSeconds (reorderDosageEndDate pd dur))
    ∧ addSaleDosageEndDate ⟨2024, 0, 31⟩ 1 = ⟨2024, 2, 2⟩ :=
  ⟨rfl, rfl, rfl, by decide⟩

/-- C6: a reorder appends exactly one entry to the history (length increases
by 1), the prior entries survive unchanged as a prefix, and the current
purchaseDate, duration and dosageEndDate are overwritten with the new
values. -/
theorem reorder_appends_one_history_entry (sale : Sale) (pd : CalDate)
    (dur : Int) (uname : String) (nowSec : Int) :
    (handleReorder sale pd dur uname nowSec).history.length
        = sale.history.length + 1
    ∧ (handleReorder sale pd dur uname nowSec).history.take sale.history.length
        = sale.history
    ∧ (handleReorder sale pd dur uname nowSec).history
        = sale.history ++
            [{ purchaseDate := calSeconds pd
               duration := dur
               dosageEndDate := calSeconds (reorderDosageEndDate pd dur)
               updatedBy := uname
               updatedAt := some nowSec }]
    ∧ (handleReorder sale pd dur uname nowSec).purchaseDate = calSeconds pd
    ∧ (handleReorder sale pd dur uname nowSec).duration = dur
    ∧ (handleReorder sale pd dur uname nowSec).dosageEndDate
        = DateField.valid (calSeconds (reorderDosageEndDate pd dur)) := by
  refine ⟨?_, ?_, rfl, rfl, rfl, rfl⟩
  · simp [handleReorder]
  · exact List.take_left sale.history _

/-- C7: a sale with a missing dosageEndDate, or one present without a usable
seconds value (date arithmetic yields NaN), is excluded from all three expiry
buckets and is skipped by all three reminder evaluation paths — no messaging
call, no stamp write, no notification; every such evaluation is total (the
embedding functions are total by construction, mirroring the code's
defensive guards rather than raising). -/
theorem missing_or_malformed_date_excluded (sale : Sale) (nowMs : Int)
    (todayStr : String) (send : MsgResult) (inMap : Bool)
    (h : sale.dosageEndDate = DateField.missing
        ∨ sale.dosageEndDate = DateField.malformed) :
    matchesFilter nowMs .expiring5days sale = false
    ∧ matchesFilter nowMs .expiredToday sale = false
    ∧ matchesFilter nowMs .alreadyExpired sale = false
    ∧ dashboardReminderGate nowMs todayStr send sale = noAction sale
    ∧ dashboardMapPath nowMs inMap send sale = noAction sale
    ∧ allCustomersReminderPath nowMs sale = noAction sale := by
  rcases h with h | h <;>
    refine ⟨?_, ?_, ?_, ?_, ?_, ?_⟩ <;>
      simp [matchesFilter, dashboardReminderGate, dashboardMapPath,
        allCustomersReminderPath, daysLeftOpt, h, noAction]

/-- C7 witness: the exclusion theorem applied to a concrete sale whose
dosageEndDate is missing. -/
theorem missing_or_malformed_date_excluded_witness :
    matchesFilter 0 .expiring5days (mkSale .missing (some "919876543210") none) = false
    ∧ matchesFilter 0 .expiredToday (mkSale .missing (some "919876543210") none) = false
    ∧ matchesFilter 0 .alreadyExpired (mkSale .missing (some "919876543210") none) = false
    ∧ dashboardReminderGate 0 "1970-01-01" MsgResult.ok
        (mkSale .missing (some "919876543210") none)
        = noAction (mkSale .missing (some "919876543210") none)
    ∧ dashboardMapPath 0 false MsgResult.ok
        (mkSale .missing (some "919876543210") none)
        = noAction (mkSale .missing (some "919876543210") none)
    ∧ allCustomersReminderPath 0 (mkSale .missing (some "919876543210") none)
        = noAction (mkSale .missing (some "919876543210") none) :=
  missing_or_malformed_date_excluded (mkSale .missing (some "919876543210") none)
    0 "1970-01-01" MsgResult.ok false (Or.inl rfl)

/-- C8 counterexample: on epoch day 20000, a sale whose stored dosage end
timestamp is exactly 0 seconds has a negative midnight-normalized day
difference, yet the already_expired dashboard list under the end-date sort is
empty — the list does not contain exactly the sales with negative day
difference. -/
theorem c8_epoch_sale_missing_from_expired_list :
    diffDays 1728000000000 (0 * 1000) < 0
    ∧ getFilteredSales (fun _ => 0) 1728000000000 .alreadyExpired .byEndDate
        [mkSale (.valid 0) (some "919876543210") none] = [] := by
  decide

/-- C8 (amended): under the already_expired filter with the end-date sort,
the dashboard list is a permutation of the sales passing the bucket filter;
it is sorted ascending by dosage-end-date timestamp; its members are exactly
the input sales with a valid NONZERO end timestamp whose midnight-normalized
day difference from today is negative; and in the spec's scenario (sales at
+3, 0, -1, -10 days) only the -1 and -10 day records appear, -10 first. -/
theorem alreadyExpired_endDate_sorted (parse : String → Int) (nowMs : Int)
    (sales : List Sale) :
    (getFilteredSales parse nowMs .alreadyExpired .byEndDate sales).Perm
        (sales.filter (matchesFilter nowMs .alreadyExpired))
    ∧ (getFilteredSales parse nowMs .alreadyExpired .byEndDate sales).Sorted
        (fun a b => endSeconds a ≤ endSeconds b)
    ∧ (∀ sale : Sale,
        sale ∈ getFilteredSales parse nowMs .alreadyExpired .byEndDate sales ↔
          sale ∈ sales ∧ ∃ s, sale.dosageEndDate = DateField.valid s ∧ s ≠ 0
            ∧ diffDays nowMs (s * 1000) < 0)
    ∧ getFilteredSales (fun _ => 0) 1728000000000 .alreadyExpired .byEndDate
        [mkSale (.valid 1728259200) (some "plus3") none,
         mkSale (.valid 1728000000) (some "zero") none,
         mkSale (.valid 1727913600) (some "minus1") none,
         mkSale (.valid 1727136000) (some "minus10") none]
      = [mkSale (.valid 1727136000) (some "minus10") none,
         mkSale (.valid 1727913600) (some "minus1") none] := by
  have hunfold : getFilteredSales parse nowMs .alreadyExpired .byEndDate sales
      = List.insertionSort (fun a b => endSeconds a ≤ endSeconds b)
          (sales.filter (matchesFilter nowMs .alreadyExpired)) := rfl
  refine ⟨?_, ?_, ?_, by decide⟩
  · rw [hunfold]
    exact List.perm_insertionSort _ _
  · rw [hunfold]
    haveI : IsTotal Sale (fun a b => endSeconds a ≤ endSeconds b) :=
      ⟨fun a b => le_total _ _⟩
    haveI : IsTrans Sale (fun a b => endSeconds a ≤ endSeconds b) :=
      ⟨fun a b c hab hbc => le_trans hab hbc⟩
    exact List.sorted_insertionSort _ _
  · intro sale
    rw [hunfold, List.mem_insertionSort, List.mem_filter,
      matchesFilter_alreadyExpired_iff]

/-- C9: a reorder modifies only purchaseDate, duration, dosageEndDate and
history; patient name, phone and WhatsApp numbers, medicine reference and
name, price, charges, total amount, team member id and name, creation
timestamp, record id and the lastReminderSent stamp are all unchanged. -/
theorem reorder_frame (sale : Sale) (pd : CalDate) (dur : Int)
    (uname : String) (nowSec : Int) :
    (handleReorder sale pd dur uname nowSec).id = sale.id
    ∧ (handleReorder sale pd dur uname nowSec).patientName = sale.patientName
    ∧ (handleReorder sale pd dur uname nowSec).phoneNumber = sale.phoneNumber
    ∧ (handleReorder sale pd dur uname nowSec).whatsappNumber = sale.whatsappNumber
    ∧ (handleReorder sale pd dur uname nowSec).medicineId = sale.medicineId
    ∧ (handleReorder sale pd dur uname nowSec).medicineName = sale.medicineName
    ∧ (handleReorder sale pd dur uname nowSec).price = sale.price
    ∧ (handleReorder sale pd dur uname nowSec).optionalCharges = sale.optionalCharges
    ∧ (handleReorder sale pd dur uname nowSec).totalAmount = sale.totalAmount
    ∧ (handleReorder sale pd dur uname nowSec).teamMemberId = sale.teamMemberId
    ∧ (handleReorder sale pd dur uname nowSec).teamMemberName = sale.teamMemberName
    ∧ (handleReorder sale pd dur uname nowSec).createdAt = sale.createdAt
    ∧ (handleReorder sale pd dur uname nowSec).lastReminderSent = sale.lastReminderSent :=
  ⟨rfl, rfl, rfl, rfl, rfl, rfl, rfl, rfl, rfl, rfl, rfl, rfl, rfl⟩

/-- C10: a sale without a phone number is skipped by every reminder
evaluation path — no messaging call, no stamp write, no notification — even
when its dosage end date is exactly two days out. -/
theorem no_phone_skips_everywhere (sale : Sale) (nowMs : Int)
    (todayStr : String) (send : MsgResult) (inMap : Bool)
    (h : sale.phoneNumber = none) :
    dashboardReminderGate nowMs todayStr send sale = noAction sale
    ∧ dashboardMapPath nowMs inMap send sale = noAction sale
    ∧ allCustomersReminderPath nowMs sale = noAction sale := by
  refine ⟨?_, ?_, ?_⟩ <;>
    simp [dashboardReminderGate, dashboardMapPath, allCustomersReminderPath,
      h, noAction]

/-- C10 witness: the no-phone skip theorem applied to a record exactly two
raw days from its dosage end (which would otherwise trigger a send). -/
theorem no_phone_skips_everywhere_witness :
    dashboardReminderGate 0 "1970-01-01" MsgResult.ok
        (mkSale (.valid 172800) none none)
        = noAction (mkSale (.valid 172800) none none)
    ∧ dashboardMapPath 0 false MsgResult.ok (mkSale (.valid 172800) none none)
        = noAction (mkSale (.valid 172800) none none)
    ∧ allCustomersReminderPath 0 (mkSale (.valid 172800) none none)
        = noAction (mkSale (.valid 172800) none none) :=
  no_phone_skips_everywhere (mkSale (.valid 172800) none none) 0 "1970-01-01"
    MsgResult.ok false rfl

end HootoneApp
